import Mathlib

/-!
Verification of the checksum resolution and streaming validation subsystem of
the go-download repository (`download.go`, the unnamed companion source file,
and the checksum validator whose implementation file is absent from the
excerpt; the validator is modelled from the specification, its callers and
test are translated from the source).

Bytes are modelled as `Nat`; a `Chunk` is the byte slice returned by one
successful `Read` call.
-/

set_option autoImplicit false

namespace GoDownload

abbrev Byte := Nat

abbrev Chunk := List Byte

/-- Splits a character list at every character satisfying `p`, the separator
characters being dropped (the splitting used by the modelled checksum-file
parser: lines at newlines, tokens at whitespace). Always returns a non-empty
list of groups; consecutive separators yield empty groups, filtered later. -/
def splitChars (p : Char → Bool) : List Char → List (List Char)
  | [] => [[]]
  | c :: rest =>
    match splitChars p rest with
    | [] => [[c]]
    | g :: gs => if p c then [] :: g :: gs else (c :: g) :: gs

/-- Modelled from the spec: tokenizing one checksum-file line — split on
whitespace and discard empty tokens (this subsumes the spec's
"trim whitespace" step for the purpose of extracting tokens). -/
def tokenizeLine (line : List Char) : List String :=
  ((splitChars (fun c => c.isWhitespace) line).map String.mk).filter
    (fun s => !s.data.isEmpty)

/-- Modelled from the spec: "Split raw content into lines; trim whitespace;
discard empty lines", each surviving line represented by its token list. -/
def parseLines (raw : String) : List (List String) :=
  ((splitChars (fun c => c == '\n') raw.data).map tokenizeLine).filter
    (fun l => !l.isEmpty)

/-- The 22 characters Go's `hex.DecodeString` accepts. -/
def hexDigits : List Char :=
  "0123456789abcdefABCDEF".data

def isHexDigit (c : Char) : Bool := decide (c ∈ hexDigits)

/-- Modelled from the spec: "validated hex". -/
def isValidHex (s : String) : Bool := !s.data.isEmpty && s.data.all isHexDigit

/-- Modelled from the spec: "a plausible digest size — 32/40/64/128 hex chars
for MD5/SHA1/SHA256/SHA512". -/
def plausibleDigestLength (n : Nat) : Bool :=
  n == 32 || n == 40 || n == 64 || n == 128

def isSchemeChar (c : Char) : Bool :=
  c.isAlpha || c.isDigit || c == '+' || c == '-' || c == '.'

/-- Helper for `isAbsURL`: after the leading alphabetic character, a scheme
continues with scheme characters until the literal `://`, after which a
non-empty host part must follow. -/
def schemeRest : List Char → Bool
  | [] => false
  | c :: rest =>
    if c = ':' then
      match rest with
      | '/' :: '/' :: host => !host.isEmpty
      | _ => false
    else
      isSchemeChar c && schemeRest rest

/-- Modelled from the spec: "a value that parses as an absolute URL
(scheme + host)" — a leading alphabetic scheme, `://`, and a non-empty
remainder. -/
def isAbsURL (s : String) : Bool :=
  match s.data with
  | [] => false
  | c :: rest => c.isAlpha && schemeRest rest

/-- Go's `path.Base` (used by both download entry points to derive the target
filename from the URL path): `"."` for the empty path, trailing slashes
stripped, the part after the last remaining slash, `"/"` if nothing is left. -/
def pathBase (p : String) : String :=
  if p = "" then "."
  else
    match p.data.reverse.dropWhile (fun c => c == '/') with
    | [] => "/"
    | revStripped => String.mk ((revStripped.takeWhile (fun c => !(c == '/'))).reverse)

/-- The environment a checksum resolution runs in: the HTTP client's GET of a
checksum URL (`some` body on success) and the local filesystem read. Both are
collaborators of the modelled resolver. -/
structure Env where
  fetch : String → Option String
  readFile : String → Option String

/-- Modelled from the spec: the classification of a checksum argument. -/
inductive SourceKind
  | literal
  | remote
  | localFile
deriving DecidableEq

/-- Modelled from the spec: `resolve(checksumArg, httpClient, ...)` — an
absolute URL is fetched (failure is fatal, no fallback); otherwise a valid hex
string of plausible digest length is the raw content itself (Literal, no I/O);
otherwise the argument is treated as a local file path, and if it is not
readable the construction fails eagerly with an error whose message begins
with "invalid checksum". -/
def resolve (env : Env) (checksumArg : String) : Except String (SourceKind × String) :=
  if isAbsURL checksumArg then
    match env.fetch checksumArg with
    | some content => .ok (SourceKind.remote, content)
    | none => .error ("failed to fetch checksum from URL: " ++ checksumArg)
  else if isValidHex checksumArg && plausibleDigestLength checksumArg.length then
    .ok (SourceKind.literal, checksumArg)
  else
    match env.readFile checksumArg with
    | some content => .ok (SourceKind.localFile, content)
    | none => .error ("invalid checksum: " ++ checksumArg)

/-- Modelled from the spec: select the first two-token line whose filename
token equals the target filename; first match wins. -/
def findTwoTokenMatch (target : String) : List (List String) → Option String
  | [] => none
  | [dg, f] :: rest =>
    if f == target then some dg else findTwoTokenMatch target rest
  | _ :: rest => findTwoTokenMatch target rest

/-- Whether a parsed line is a two-token entry whose filename token equals
the target filename (used to state first-match-wins). -/
def isMatchLine (target : String) : List String → Bool
  | [_, f] => f == target
  | _ => false

/-- Modelled from the spec: the bare-digest fallback — the first line
consisting of exactly one token. -/
def findBareDigest : List (List String) → Option String
  | [] => none
  | [dg] :: _ => some dg
  | _ :: rest => findBareDigest rest

/-- Modelled from the spec: `resolveExpectedDigest(rawContent, targetFilename)`
— a matching two-token entry wins, else the bare-digest fallback, else a
"checksum not found for file" error. -/
def resolveExpectedDigest (raw target : String) : Except String String :=
  match findTwoTokenMatch target (parseLines raw) with
  | some d => .ok d
  | none =>
    match findBareDigest (parseLines raw) with
    | some d => .ok d
    | none => .error ("checksum not found for file: " ++ target)

/-- Lowercasing a string character by character (Go's `strings.ToLower` for
the ASCII digest strings involved). -/
def strLower (s : String) : String :=
  String.mk (s.data.map Char.toLower)

/-- Modelled from the spec: the streaming validator — a live digest engine
(represented by the pure finalization function `hashFn` of the accumulated
bytes), the accumulated byte sequence, the resolved expected digest, and the
target filename. -/
structure Validator where
  hashFn : List Byte → String
  acc : List Byte
  expected : String
  filename : String

/-- Modelled from the spec: `write(bytes)` forwards bytes to the digest
engine and never fails. -/
def Validator.write (v : Validator) (bs : Chunk) : Validator :=
  { v with acc := v.acc ++ bs }

/-- Modelled from the spec: `validate() -> bool` finalizes the digest engine,
lowercases both the computed digest and the expected digest, and returns true
iff they are equal as strings — never an error on mismatch. -/
def Validator.validate (v : Validator) : Bool :=
  strLower (v.hashFn v.acc) == strLower v.expected

/-- Modelled from the spec: `newValidator` — resolver and parser run once at
construction; any resolution or parsing failure is returned eagerly, otherwise
the validator starts with an empty accumulator and the resolved digest. -/
def newValidator (hashFn : List Byte → String) (env : Env)
    (checksum filename : String) : Except String Validator :=
  match resolve env checksum with
  | .error e => .error e
  | .ok kr =>
    match resolveExpectedDigest kr.2 filename with
    | .error e => .error e
    | .ok d => .ok ⟨hashFn, [], d, filename⟩

/-- Modelled from the spec: the validator's two-state machine — Accumulating
between construction and the end of the copy loop, Finalized after
`validate()`. -/
inductive VState
  | accumulating (v : Validator)
  | finalized (result : Bool)

/-- Modelled from the spec: the one-shot Accumulating→Finalized transition
performed by `validate()`; on an already finalized validator the recorded
result is returned unchanged. -/
def validateStep : VState → Bool × VState
  | .accumulating v => (v.validate, .finalized v.validate)
  | .finalized r => (r, .finalized r)

/-- The hash algorithms of the `switch` in `createValidator` (download.go)
and `DownloadURL` (unnamed source file). -/
inductive HashAlg
  | md5
  | sha1
  | sha256
  | sha512
deriving DecidableEq

/-- Go `crypto.MD5`. -/
def cryptoMD5 : Nat := 2

/-- Go `crypto.SHA1`. -/
def cryptoSHA1 : Nat := 3

/-- Go `crypto.SHA256`. -/
def cryptoSHA256 : Nat := 5

/-- Go `crypto.SHA512`. -/
def cryptoSHA512 : Nat := 7

/-- The hash-selector `switch` of `createValidator` / `DownloadURL`:
`case crypto.SHA256, 0` (the zero value defaults to SHA-256), `crypto.SHA1`,
`crypto.SHA512`, `crypto.MD5`, and `default: invalid hash function`. -/
def selectHasher (hashType : Nat) : Except String HashAlg :=
  if hashType = cryptoSHA256 ∨ hashType = 0 then .ok .sha256
  else if hashType = cryptoSHA1 then .ok .sha1
  else if hashType = cryptoSHA512 then .ok .sha512
  else if hashType = cryptoMD5 then .ok .md5
  else .error "invalid hash function"

/-- The body of the HTTP 200 response for the main download: the chunks the
successive reads return, followed by `readErr` (`none` means clean EOF). -/
structure Body where
  chunks : List Chunk
  readErr : Option String

/-- The copy loop of `io.Copy(w, io.TeeReader(reader, validator))` over the
successful reads: every chunk read is written to the validator inside
`TeeReader.Read` and then written to the destination by `io.Copy`. Returns
the validator after all writes and the chunks written to the destination,
in order. -/
def runCopyAux (v : Validator) : List Chunk → Validator × List Chunk
  | [] => (v, [])
  | c :: rest =>
    ((runCopyAux (v.write c) rest).1, c :: (runCopyAux (v.write c) rest).2)

/-- `io.Copy` over the tee reader for a whole body: the validator state after
the copy, the destination writes, and the read error `io.Copy` reports after
the successful reads (`none` for EOF, in which case `io.Copy` returns nil). -/
def runCopy (v : Validator) (b : Body) : Validator × List Chunk × Option String :=
  ((runCopyAux v b.chunks).1, (runCopyAux v b.chunks).2, b.readErr)

/-- The observable outcome of the modelled `DownloadURL`: the returned error
or success, the chunks written to the destination writer, and the validator
state after the copy loop (`none` when no validator was interposed). -/
structure DLResult where
  result : Except String Unit
  destWrites : List Chunk
  finalValidator : Option Validator

/-- `DownloadURL` (unnamed source file) / `FromURL` (download.go) from the
200 response on: when `len(options.Checksum) != 0`, the hash selector is
mapped (an unrecognized selector fails before any bytes are copied), the
validator is constructed with the base name of the URL path (construction
failure is wrapped), the tee reader is interposed, the copy runs, a copy
error is wrapped as "failed to copy contents", and only then a false
`validate()` becomes the distinct "checksum validation failed" error. With an
empty Checksum the plain copy runs and no validator exists.
(`hashFamily` supplies the digest engine for the selected algorithm.) -/
def downloadURL (hashFamily : HashAlg → List Byte → String) (env : Env)
    (checksum : String) (checksumHash : Nat) (srcPath : String) (b : Body) : DLResult :=
  if checksum.length ≠ 0 then
    match selectHasher checksumHash with
    | .error e => ⟨.error e, [], none⟩
    | .ok alg =>
      match newValidator (hashFamily alg) env checksum (pathBase srcPath) with
      | .error e => ⟨.error ("failed to create validator: " ++ e), [], none⟩
      | .ok v =>
        match (runCopy v b).2.2 with
        | some e =>
          ⟨.error ("failed to copy contents: " ++ e), (runCopy v b).2.1, some (runCopy v b).1⟩
        | none =>
          if (runCopy v b).1.validate then ⟨.ok (), (runCopy v b).2.1, some (runCopy v b).1⟩
          else ⟨.error "checksum validation failed", (runCopy v b).2.1, some (runCopy v b).1⟩
  else
    match b.readErr with
    | some e => ⟨.error ("failed to copy contents: " ++ e), b.chunks, none⟩
    | none => ⟨.ok (), b.chunks, none⟩

/-- What `ioutil.TempFile` returned in the modelled run: the created file's
name, or `none` together with an error — Go's `TempFile` returns a nil
`*os.File` exactly when it returns an error. -/
structure TempFileResult where
  file : Option String
  err : Option String

/-- Outcome of evaluating the temp-file-creation step of a file-download
entry point: continue, return a wrapped error, or dereference a nil file
handle (a runtime panic in Go). -/
inductive FileStep
  | ok
  | errorReturn (msg : String)
  | nilDereference
deriving DecidableEq

/-- `ToFile` (download.go), temp-file step: on a `TempFile` error the wrapped
error is returned immediately, with no cleanup touching the file handle. -/
def toFileTempStep (r : TempFileResult) : FileStep :=
  match r.err with
  | some e => .errorReturn ("failed to create temp file: " ++ e)
  | none => .ok

/-- `DownloadToFile` (unnamed source file), temp-file step: on a `TempFile`
error the code first runs `_ = os.Remove(f.Name())`; `f.Name()` on the nil
handle `TempFile` returned alongside the error is a nil dereference. -/
def downloadToFileTempStep (r : TempFileResult) : FileStep :=
  match r.err with
  | some e =>
    match r.file with
    | none => .nilDereference
    | some _ => .errorReturn ("failed to create temp file: " ++ e)
  | none => .ok

/-! ### Helper lemmas -/

theorem splitChars_no_split (p : Char → Bool) :
    ∀ cs : List Char, (∀ c ∈ cs, p c = false) → splitChars p cs = [cs]
  | [], _ => rfl
  | c :: rest, h => by
    have ih := splitChars_no_split p rest (fun x hx => h x (List.mem_cons_of_mem _ hx))
    simp [splitChars, ih, h c (List.mem_cons_self _ _)]

theorem tokenizeLine_single (cs : List Char) (hne : cs ≠ [])
    (hw : ∀ c ∈ cs, c.isWhitespace = false) : tokenizeLine cs = [String.mk cs] := by
  unfold tokenizeLine
  rw [splitChars_no_split _ cs hw]
  rcases cs with _ | ⟨c, rest⟩
  · exact absurd rfl hne
  · simp

theorem parseLines_single (s : String) (hne : s.data ≠ [])
    (hw : ∀ c ∈ s.data, c.isWhitespace = false) : parseLines s = [[s]] := by
  unfold parseLines
  have hnl : ∀ c ∈ s.data, (c == '\n') = false := by
    intro c hc
    have := hw c hc
    cases hb : (c == '\n')
    · rfl
    · rw [eq_of_beq hb] at this
      simp [Char.isWhitespace] at this
  rw [splitChars_no_split _ s.data hnl]
  have hws : ∀ c ∈ s.data, c.isWhitespace = false := hw
  simp [tokenizeLine_single s.data hne hws]

theorem resolveExpectedDigest_single (s t : String) (hne : s.data ≠ [])
    (hw : ∀ c ∈ s.data, c.isWhitespace = false) :
    resolveExpectedDigest s t = Except.ok s := by
  unfold resolveExpectedDigest
  rw [parseLines_single s hne hw]
  rfl

theorem hexDigits_facts :
    ∀ c ∈ hexDigits, c.isWhitespace = false ∧ ¬c = ':' := by decide

theorem mem_of_isHexDigit {c : Char} (h : isHexDigit c = true) : c ∈ hexDigits :=
  of_decide_eq_true h

theorem schemeRest_hex : ∀ cs : List Char,
    (∀ c ∈ cs, isHexDigit c = true) → schemeRest cs = false
  | [], _ => rfl
  | c :: rest, h => by
    have hcol : ¬c = ':' := (hexDigits_facts c (mem_of_isHexDigit (h c (List.mem_cons_self _ _)))).2
    have ih := schemeRest_hex rest (fun x hx => h x (List.mem_cons_of_mem _ hx))
    unfold schemeRest
    rw [if_neg hcol, ih, Bool.and_false]

theorem isAbsURL_hex (s : String) (h : ∀ c ∈ s.data, isHexDigit c = true) :
    isAbsURL s = false := by
  unfold isAbsURL
  rcases hd : s.data with _ | ⟨c, rest⟩
  · rfl
  · have hrest := schemeRest_hex rest (fun x hx => h x (hd ▸ List.mem_cons_of_mem _ hx))
    simp [hrest]

theorem isValidHex_all {s : String} (h : isValidHex s = true) :
    ∀ c ∈ s.data, isHexDigit c = true := by
  unfold isValidHex at h
  exact List.all_eq_true.mp ((Bool.and_eq_true _ _).mp h).2

theorem isValidHex_ne_nil {s : String} (h : isValidHex s = true) : s.data ≠ [] := by
  unfold isValidHex at h
  intro heq
  rw [heq] at h
  simp at h

theorem isValidHex_no_ws {s : String} (h : isValidHex s = true) :
    ∀ c ∈ s.data, c.isWhitespace = false := fun c hc =>
  (hexDigits_facts c (mem_of_isHexDigit (isValidHex_all h c hc))).1

theorem resolve_literal (env : Env) (h : String) (hhex : isValidHex h = true)
    (hlen : plausibleDigestLength h.length = true) :
    resolve env h = Except.ok (SourceKind.literal, h) := by
  unfold resolve
  rw [isAbsURL_hex h (isValidHex_all hhex)]
  simp [hhex, hlen]

theorem newValidator_literal (hf : List Byte → String) (env : Env)
    (h fn : String) (hhex : isValidHex h = true)
    (hlen : plausibleDigestLength h.length = true) :
    newValidator hf env h fn = Except.ok ⟨hf, [], h, fn⟩ := by
  unfold newValidator
  rw [resolve_literal env h hhex hlen]
  simp [resolveExpectedDigest_single h fn (isValidHex_ne_nil hhex) (isValidHex_no_ws hhex)]

theorem findTwoTokenMatch_cons_no (t : String) (l : List String)
    (rest : List (List String)) (h : isMatchLine t l = false) :
    findTwoTokenMatch t (l :: rest) = findTwoTokenMatch t rest := by
  match l with
  | [] => rfl
  | [a] => rfl
  | [a, b] =>
    have hb : ¬(b = t) := by
      intro hbt
      rw [hbt] at h
      simp [isMatchLine] at h
    simp [findTwoTokenMatch, hb]
  | a :: b :: c :: tl => rfl

theorem findTwoTokenMatch_first (t d : String) (L1 L2 : List (List String))
    (h : ∀ l ∈ L1, isMatchLine t l = false) :
    findTwoTokenMatch t (L1 ++ [d, t] :: L2) = some d := by
  induction L1 with
  | nil =>
    unfold findTwoTokenMatch
    simp
  | cons l tl ih =>
    rw [List.cons_append,
      findTwoTokenMatch_cons_no t l _ (h l (List.mem_cons_self _ _))]
    exact ih (fun x hx => h x (List.mem_cons_of_mem _ hx))

theorem findTwoTokenMatch_none (t : String) :
    ∀ L : List (List String), (∀ l ∈ L, isMatchLine t l = false) →
      findTwoTokenMatch t L = none
  | [], _ => rfl
  | l :: tl, h => by
    rw [findTwoTokenMatch_cons_no t l _ (h l (List.mem_cons_self _ _))]
    exact findTwoTokenMatch_none t tl (fun x hx => h x (List.mem_cons_of_mem _ hx))

theorem findBareDigest_cons (l : List String) (rest : List (List String))
    (h : l.length ≠ 1) : findBareDigest (l :: rest) = findBareDigest rest := by
  match l with
  | [] => rfl
  | [a] => exact absurd rfl h
  | a :: b :: tl => rfl

theorem findBareDigest_none :
    ∀ L : List (List String), (∀ l ∈ L, l.length ≠ 1) → findBareDigest L = none
  | [], _ => rfl
  | l :: tl, h => by
    rw [findBareDigest_cons l tl (h l (List.mem_cons_self _ _))]
    exact findBareDigest_none tl (fun x hx => h x (List.mem_cons_of_mem _ hx))

theorem runCopyAux_dest (v : Validator) (cs : List Chunk) :
    (runCopyAux v cs).2 = cs := by
  induction cs generalizing v with
  | nil => rfl
  | cons c rest ih => simp [runCopyAux, ih]

theorem runCopyAux_acc (v : Validator) (cs : List Chunk) :
    (runCopyAux v cs).1.acc = v.acc ++ cs.flatten := by
  induction cs generalizing v with
  | nil => simp [runCopyAux]
  | cons c rest ih => simp [runCopyAux, ih, Validator.write, List.append_assoc]

theorem runCopyAux_expected (v : Validator) (cs : List Chunk) :
    (runCopyAux v cs).1.expected = v.expected := by
  induction cs generalizing v with
  | nil => rfl
  | cons c rest ih => simp [runCopyAux, ih, Validator.write]

theorem newValidator_ok_shape (hf : List Byte → String) (env : Env) (cs fn : String)
    (v : Validator) (h : newValidator hf env cs fn = Except.ok v) :
    ∃ raw k d, resolve env cs = Except.ok (k, raw) ∧
      resolveExpectedDigest raw fn = Except.ok d ∧ v = ⟨hf, [], d, fn⟩ := by
  unfold newValidator at h
  rcases hres : resolve env cs with e | kr
  · simp only [hres] at h
    exact Except.noConfusion h
  · simp only [hres] at h
    rcases hdig : resolveExpectedDigest kr.2 fn with e | d
    · simp only [hdig] at h
      exact Except.noConfusion h
    · simp only [hdig, Except.ok.injEq] at h
      exact ⟨kr.2, kr.1, d, by simp [hres], hdig, h.symm⟩

theorem downloadURL_fields (hashFamily : HashAlg → List Byte → String) (env : Env)
    (checksum : String) (ch : Nat) (srcPath : String) (b : Body)
    (alg : HashAlg) (v0 : Validator)
    (hcs : checksum.length ≠ 0)
    (hsel : selectHasher ch = Except.ok alg)
    (hnv : newValidator (hashFamily alg) env checksum (pathBase srcPath) = Except.ok v0) :
    (downloadURL hashFamily env checksum ch srcPath b).finalValidator =
      some (runCopyAux v0 b.chunks).1 ∧
    (downloadURL hashFamily env checksum ch srcPath b).destWrites =
      (runCopyAux v0 b.chunks).2 ∧
    (downloadURL hashFamily env checksum ch srcPath b).result =
      (match b.readErr with
       | some e => Except.error ("failed to copy contents: " ++ e)
       | none =>
         if (runCopyAux v0 b.chunks).1.validate then Except.ok ()
         else Except.error "checksum validation failed") := by
  unfold downloadURL runCopy
  rw [if_pos hcs]
  simp only [hsel, hnv]
  rcases hre : b.readErr with _ | e
  · simp only [hre]
    cases hval : (runCopyAux v0 b.chunks).1.validate <;> simp [hval]
  · simp [hre]

/-! ### Claim theorems -/

/-- C1: when a checksum is supplied and the validator is constructed, the
modelled `DownloadURL` interposes the validator as the tee reader's side
writer on the copy path, so the byte sequence accumulated by the validator's
digest engine equals the byte sequence delivered to the destination writer,
each chunk written exactly once and in order. -/
theorem c1_validator_observes_destination_bytes
    (hashFamily : HashAlg → List Byte → String) (env : Env) (checksum : String)
    (ch : Nat) (srcPath : String) (b : Body) (alg : HashAlg) (v0 : Validator)
    (hcs : checksum.length ≠ 0)
    (hsel : selectHasher ch = Except.ok alg)
    (hnv : newValidator (hashFamily alg) env checksum (pathBase srcPath) = Except.ok v0) :
    ∃ vF : Validator,
      (downloadURL hashFamily env checksum ch srcPath b).finalValidator = some vF ∧
      vF.acc = (downloadURL hashFamily env checksum ch srcPath b).destWrites.flatten ∧
      (downloadURL hashFamily env checksum ch srcPath b).destWrites = b.chunks := by
  obtain ⟨raw, k, d, hres, hdig, hv0⟩ := newValidator_ok_shape _ _ _ _ _ hnv
  have hacc : v0.acc = [] := by rw [hv0]
  obtain ⟨hFV, hDW, hres2⟩ :=
    downloadURL_fields hashFamily env checksum ch srcPath b alg v0 hcs hsel hnv
  refine ⟨(runCopyAux v0 b.chunks).1, hFV, ?_, ?_⟩
  · rw [hDW, runCopyAux_acc, hacc, List.nil_append, runCopyAux_dest]
  · rw [hDW, runCopyAux_dest]

/-- C2: `validate()` (modelled from the spec) is a Boolean comparison of the
lowercased finalized digest with the lowercased expected digest, never an
error on mismatch; in the modelled `DownloadURL` a completed copy followed by
a false `validate()` yields exactly the distinct "checksum validation failed"
error, with the whole body already delivered to the destination, while a read
error during the copy is reported as the wrapped copy error instead. -/
theorem c2_validate_boolean_and_error_separation
    (hashFamily : HashAlg → List Byte → String) (env : Env) (checksum : String)
    (ch : Nat) (srcPath : String) (b : Body) (alg : HashAlg) (v0 : Validator)
    (hcs : checksum.length ≠ 0)
    (hsel : selectHasher ch = Except.ok alg)
    (hnv : newValidator (hashFamily alg) env checksum (pathBase srcPath) = Except.ok v0) :
    (∀ w : Validator, w.validate = (strLower (w.hashFn w.acc) == strLower w.expected)) ∧
    (b.readErr = none →
      (downloadURL hashFamily env checksum ch srcPath b).destWrites = b.chunks ∧
      ((downloadURL hashFamily env checksum ch srcPath b).result =
          Except.error "checksum validation failed" ↔
        (runCopyAux v0 b.chunks).1.validate = false)) ∧
    (∀ e : String, b.readErr = some e →
      (downloadURL hashFamily env checksum ch srcPath b).result =
        Except.error ("failed to copy contents: " ++ e)) := by
  obtain ⟨hFV, hDW, hres2⟩ :=
    downloadURL_fields hashFamily env checksum ch srcPath b alg v0 hcs hsel hnv
  refine ⟨fun w => rfl, fun hre => ⟨by rw [hDW, runCopyAux_dest], ?_⟩, fun e hre => ?_⟩
  · rw [hres2, hre]
    cases hval : (runCopyAux v0 b.chunks).1.validate <;> simp [hval]
  · rw [hres2, hre]

/-- C3: a checksum argument that is not an absolute URL, not valid hex of a
plausible digest length, and not readable as a checksum file makes
`newValidator` fail eagerly with an error whose message starts with
"invalid checksum". -/
theorem c3_invalid_checksum_eager_error
    (hf : List Byte → String) (env : Env) (arg fn : String)
    (hurl : isAbsURL arg = false)
    (hhex : (isValidHex arg && plausibleDigestLength arg.length) = false)
    (hfile : env.readFile arg = none) :
    ∃ rest : String,
      newValidator hf env arg fn = Except.error ("invalid checksum" ++ rest) := by
  refine ⟨": " ++ arg, ?_⟩
  have hres : resolve env arg = Except.error ("invalid checksum: " ++ arg) := by
    unfold resolve
    simp [hurl, hhex, hfile]
  unfold newValidator
  simp only [hres]
  have hmsg : ("invalid checksum: " ++ arg) = ("invalid checksum" ++ (": " ++ arg)) := by
    rw [← String.append_assoc]
    rfl
  rw [hmsg]

/-- C4: with the checksum content resolved, the parser returns the digest of
the first two-token entry whose filename token equals the target filename —
which the modelled `DownloadURL` takes to be the base name of the download
URL path — and the interposed validator carries exactly that digest as its
expected digest. -/
theorem c4_first_matching_entry_wins
    (hashFamily : HashAlg → List Byte → String) (env : Env) (checksum : String)
    (ch : Nat) (srcPath : String) (b : Body) (alg : HashAlg) (k : SourceKind)
    (raw d : String) (L1 L2 : List (List String))
    (hcs : checksum.length ≠ 0)
    (hsel : selectHasher ch = Except.ok alg)
    (hres : resolve env checksum = Except.ok (k, raw))
    (hparse : parseLines raw = L1 ++ [d, pathBase srcPath] :: L2)
    (hfirst : ∀ l ∈ L1, isMatchLine (pathBase srcPath) l = false) :
    resolveExpectedDigest raw (pathBase srcPath) = Except.ok d ∧
    ∃ vF : Validator,
      (downloadURL hashFamily env checksum ch srcPath b).finalValidator = some vF ∧
      vF.expected = d := by
  have hdig : resolveExpectedDigest raw (pathBase srcPath) = Except.ok d := by
    unfold resolveExpectedDigest
    rw [hparse]
    simp only [findTwoTokenMatch_first _ _ _ _ hfirst]
  have hnv : newValidator (hashFamily alg) env checksum (pathBase srcPath) =
      Except.ok ⟨hashFamily alg, [], d, pathBase srcPath⟩ := by
    unfold newValidator
    simp only [hres, hdig]
  obtain ⟨hFV, hDW, hres2⟩ :=
    downloadURL_fields hashFamily env checksum ch srcPath b alg _ hcs hsel hnv
  exact ⟨hdig, (runCopyAux ⟨hashFamily alg, [], d, pathBase srcPath⟩ b.chunks).1, hFV,
    by rw [runCopyAux_expected]⟩

/-- C5: checksum-file content that is a single bare-digest token resolves to
that digest for every queried target filename; and when no two-token entry
matches the target and no one-token bare-digest line exists, resolution fails
with the "checksum not found for file" error. -/
theorem c5_bare_digest_and_not_found :
    (∀ dRaw t : String, dRaw.data ≠ [] →
      (∀ c ∈ dRaw.data, c.isWhitespace = false) →
      resolveExpectedDigest dRaw t = Except.ok dRaw) ∧
    (∀ raw t : String,
      (∀ l ∈ parseLines raw, isMatchLine t l = false ∧ l.length ≠ 1) →
      resolveExpectedDigest raw t =
        Except.error ("checksum not found for file: " ++ t)) := by
  constructor
  · exact fun dRaw t hne hw => resolveExpectedDigest_single dRaw t hne hw
  · intro raw t h
    unfold resolveExpectedDigest
    simp only [findTwoTokenMatch_none t _ (fun l hl => (h l hl).1),
      findBareDigest_none _ (fun l hl => (h l hl).2)]

/-- C6: a valid hex string of plausible digest length (32/40/64/128) is
classified as a Literal by the resolver, with no I/O performed (the result is
the same in every environment), the string itself becomes the expected
digest, and the expected digest is compared case-insensitively. -/
theorem c6_literal_hex_no_io (env : Env) (h : String)
    (hhex : isValidHex h = true) (hlen : plausibleDigestLength h.length = true) :
    resolve env h = Except.ok (SourceKind.literal, h) ∧
    (∀ env2 : Env, resolve env2 h = resolve env h) ∧
    (∀ (hf : List Byte → String) (fn : String),
      newValidator hf env h fn = Except.ok ⟨hf, [], h, fn⟩) ∧
    (∀ (hf : List Byte → String) (acc : List Byte) (fn s : String),
      strLower s = strLower h →
      Validator.validate ⟨hf, acc, s, fn⟩ = Validator.validate ⟨hf, acc, h, fn⟩) := by
  refine ⟨resolve_literal env h hhex hlen, ?_, ?_, ?_⟩
  · intro env2
    rw [resolve_literal env h hhex hlen, resolve_literal env2 h hhex hlen]
  · intro hf fn
    exact newValidator_literal hf env h fn hhex hlen
  · intro hf acc fn s hs
    simp [Validator.validate, hs]

/-- C7: the hash selector is a pure mapping applied once — the zero value
defaults to SHA-256, the four supported `crypto.Hash` values map to their
algorithms, and every other selector makes the modelled `DownloadURL` fail
with the "invalid hash function" error with no bytes copied and no validator
constructed. -/
theorem c7_hash_selector_mapping :
    selectHasher 0 = Except.ok HashAlg.sha256 ∧
    selectHasher cryptoMD5 = Except.ok HashAlg.md5 ∧
    selectHasher cryptoSHA1 = Except.ok HashAlg.sha1 ∧
    selectHasher cryptoSHA256 = Except.ok HashAlg.sha256 ∧
    selectHasher cryptoSHA512 = Except.ok HashAlg.sha512 ∧
    (∀ h : Nat, h ≠ 0 → h ≠ cryptoMD5 → h ≠ cryptoSHA1 → h ≠ cryptoSHA256 →
      h ≠ cryptoSHA512 → selectHasher h = Except.error "invalid hash function") ∧
    (∀ (hashFamily : HashAlg → List Byte → String) (env : Env) (checksum : String)
      (ch : Nat) (srcPath : String) (b : Body),
      checksum.length ≠ 0 →
      selectHasher ch = Except.error "invalid hash function" →
      downloadURL hashFamily env checksum ch srcPath b =
        ⟨Except.error "invalid hash function", [], none⟩) := by
  refine ⟨rfl, rfl, rfl, rfl, rfl, ?_, ?_⟩
  · intro h h0 h2 h3 h5 h7
    unfold selectHasher cryptoMD5 cryptoSHA1 cryptoSHA256 cryptoSHA512 at *
    simp [h0, h2, h3, h5, h7]
  · intro hashFamily env checksum ch srcPath b hcs hsel
    unfold downloadURL
    rw [if_pos hcs]
    simp only [hsel]

/-- C8: the modelled Accumulating→Finalized transition is one-shot — after a
completed copy, performing `validate()` twice returns the same Boolean both
times. -/
theorem c8_validate_idempotent (v : Validator) (b : Body) :
    (validateStep (validateStep (VState.accumulating (runCopy v b).1)).2).1 =
      (validateStep (VState.accumulating (runCopy v b).1)).1 := rfl

/-- C9: with an empty Checksum option the modelled `DownloadURL` constructs
no validator, never examines the hash selector (the outcome is identical for
any selector value, supported or not), and succeeds exactly as the plain copy
does. -/
theorem c9_empty_checksum_skips_validation
    (hashFamily : HashAlg → List Byte → String) (env : Env) (ch ch2 : Nat)
    (srcPath : String) (b : Body) :
    (downloadURL hashFamily env "" ch srcPath b).finalValidator = none ∧
    downloadURL hashFamily env "" ch srcPath b =
      downloadURL hashFamily env "" ch2 srcPath b ∧
    (b.readErr = none →
      (downloadURL hashFamily env "" ch srcPath b).result = Except.ok () ∧
      (downloadURL hashFamily env "" ch srcPath b).destWrites = b.chunks) := by
  rcases hre : b.readErr with _ | e <;> simp [downloadURL, hre]

/-- C10: evaluating both file-download entry points at a temp-file creation
failure (Go's `ioutil.TempFile` returns a nil handle together with the
error): `ToFile` (download.go) returns the wrapped error without touching the
handle, but `DownloadToFile` (unnamed source file) reaches
`os.Remove(f.Name())` with the nil handle — a nil dereference, contradicting
the claim for that entry point. -/
theorem c10_nil_handle_in_temp_error_branch :
    downloadToFileTempStep ⟨none, some "permission denied"⟩ =
      FileStep.nilDereference ∧
    toFileTempStep ⟨none, some "permission denied"⟩ =
      FileStep.errorReturn ("failed to create temp file: " ++ "permission denied") ∧
    FileStep.nilDereference ≠
      FileStep.errorReturn ("failed to create temp file: " ++ "permission denied") := by
  refine ⟨rfl, rfl, by simp⟩

/-! ### Concrete witnesses -/

/-- Witness for C1 at a concrete literal checksum and a three-byte body. -/
theorem c1_validator_observes_destination_bytes_witness :
    ∃ vF : Validator,
      (downloadURL (fun _ _ => "") ⟨fun _ => none, fun _ => none⟩
          "d577273ff885c3f84dadb8578bb41399" 0 "/dl/testfile"
          ⟨[[0, 1], [2]], none⟩).finalValidator = some vF ∧
      vF.acc = (downloadURL (fun _ _ => "") ⟨fun _ => none, fun _ => none⟩
          "d577273ff885c3f84dadb8578bb41399" 0 "/dl/testfile"
          ⟨[[0, 1], [2]], none⟩).destWrites.flatten ∧
      (downloadURL (fun _ _ => "") ⟨fun _ => none, fun _ => none⟩
          "d577273ff885c3f84dadb8578bb41399" 0 "/dl/testfile"
          ⟨[[0, 1], [2]], none⟩).destWrites = [[0, 1], [2]] :=
  c1_validator_observes_destination_bytes (fun _ _ => "") ⟨fun _ => none, fun _ => none⟩
    "d577273ff885c3f84dadb8578bb41399" 0 "/dl/testfile" ⟨[[0, 1], [2]], none⟩
    HashAlg.sha256 ⟨fun _ => "", [], "d577273ff885c3f84dadb8578bb41399", "testfile"⟩
    (by decide) rfl rfl

/-- Witness for C2: with a digest engine producing a mismatching digest, the
modelled download reports exactly the checksum-validation error. -/
theorem c2_validate_boolean_and_error_separation_witness :
    (downloadURL (fun _ _ => "00") ⟨fun _ => none, fun _ => none⟩
        "d577273ff885c3f84dadb8578bb41399" 0 "/dl/testfile" ⟨[[3]], none⟩).result =
      Except.error "checksum validation failed" :=
  (((c2_validate_boolean_and_error_separation (fun _ _ => "00")
      ⟨fun _ => none, fun _ => none⟩ "d577273ff885c3f84dadb8578bb41399" 0
      "/dl/testfile" ⟨[[3]], none⟩ HashAlg.sha256
      ⟨fun _ => "00", [], "d577273ff885c3f84dadb8578bb41399", "testfile"⟩
      (by decide) rfl rfl).2.1 rfl).2).mpr (by decide)

/-- Witness for C3: the test's input "totally invalid" with a nil client and
no readable file. -/
theorem c3_invalid_checksum_eager_error_witness :
    ∃ rest : String,
      newValidator (fun _ => "") ⟨fun _ => none, fun _ => none⟩ "totally invalid" "" =
        Except.error ("invalid checksum" ++ rest) :=
  c3_invalid_checksum_eager_error (fun _ => "") ⟨fun _ => none, fun _ => none⟩
    "totally invalid" "" (by decide) (by decide) rfl

/-- Witness for C4: a three-line checksum file in which the second line is
the first entry matching the base name of the URL path `/dl/testfile`. -/
theorem c4_first_matching_entry_wins_witness :
    resolveExpectedDigest "deadbeef other.txt\nabc123 testfile\ncafe testfile"
        (pathBase "/dl/testfile") = Except.ok "abc123" ∧
    ∃ vF : Validator,
      (downloadURL (fun _ _ => "")
          ⟨fun _ => some "deadbeef other.txt\nabc123 testfile\ncafe testfile",
           fun _ => none⟩
          "http://cs.example.com/sums" 0 "/dl/testfile" ⟨[[1]], none⟩).finalValidator =
        some vF ∧ vF.expected = "abc123" :=
  c4_first_matching_entry_wins (fun _ _ => "")
    ⟨fun _ => some "deadbeef other.txt\nabc123 testfile\ncafe testfile", fun _ => none⟩
    "http://cs.example.com/sums" 0 "/dl/testfile" ⟨[[1]], none⟩ HashAlg.sha256
    SourceKind.remote "deadbeef other.txt\nabc123 testfile\ncafe testfile" "abc123"
    [["deadbeef", "other.txt"]] [["cafe", "testfile"]]
    (by decide) rfl rfl rfl (by decide)

/-- Witness for C5: a bare digest answers any filename; a file with only a
three-token line answers with the not-found error. -/
theorem c5_bare_digest_and_not_found_witness :
    resolveExpectedDigest "abc123" "whatever" = Except.ok "abc123" ∧
    resolveExpectedDigest "aaa bbb ccc\n" "f" =
      Except.error ("checksum not found for file: " ++ "f") :=
  ⟨c5_bare_digest_and_not_found.1 "abc123" "whatever" (by decide) (by decide),
   c5_bare_digest_and_not_found.2 "aaa bbb ccc\n" "f" (by decide)⟩

/-- Witness for C6: an uppercase 32-character hex literal is classified as a
Literal with no I/O, and its comparison is case-insensitive. -/
theorem c6_literal_hex_no_io_witness :
    resolve ⟨fun _ => none, fun _ => none⟩ "D577273FF885C3F84DADB8578BB41399" =
      Except.ok (SourceKind.literal, "D577273FF885C3F84DADB8578BB41399") ∧
    newValidator (fun _ => "x") ⟨fun _ => none, fun _ => none⟩
        "D577273FF885C3F84DADB8578BB41399" "f" =
      Except.ok ⟨fun _ => "x", [], "D577273FF885C3F84DADB8578BB41399", "f"⟩ ∧
    Validator.validate ⟨fun _ => "x", [], "d577273ff885c3f84dadb8578bb41399", "f"⟩ =
      Validator.validate ⟨fun _ => "x", [], "D577273FF885C3F84DADB8578BB41399", "f"⟩ :=
  ⟨(c6_literal_hex_no_io ⟨fun _ => none, fun _ => none⟩
      "D577273FF885C3F84DADB8578BB41399" (by decide) (by decide)).1,
   (c6_literal_hex_no_io ⟨fun _ => none, fun _ => none⟩
      "D577273FF885C3F84DADB8578BB41399" (by decide) (by decide)).2.2.1
     (fun _ => "x") "f",
   (c6_literal_hex_no_io ⟨fun _ => none, fun _ => none⟩
      "D577273FF885C3F84DADB8578BB41399" (by decide) (by decide)).2.2.2
     (fun _ => "x") [] "f" "d577273ff885c3f84dadb8578bb41399" (by decide)⟩

/-- Witness for C7: selector 4 (`crypto.SHA224`) is unsupported and fails the
download before any bytes are copied. -/
theorem c7_hash_selector_mapping_witness :
    selectHasher 4 = Except.error "invalid hash function" ∧
    downloadURL (fun _ _ => "") ⟨fun _ => none, fun _ => none⟩
        "d577273ff885c3f84dadb8578bb41399" 4 "/dl/testfile" ⟨[[1]], none⟩ =
      ⟨Except.error "invalid hash function", [], none⟩ :=
  ⟨c7_hash_selector_mapping.2.2.2.2.2.1 4 (by decide) (by decide) (by decide)
     (by decide) (by decide),
   c7_hash_selector_mapping.2.2.2.2.2.2 (fun _ _ => "") ⟨fun _ => none, fun _ => none⟩
     "d577273ff885c3f84dadb8578bb41399" 4 "/dl/testfile" ⟨[[1]], none⟩ (by decide)
     (c7_hash_selector_mapping.2.2.2.2.2.1 4 (by decide) (by decide) (by decide)
       (by decide) (by decide))⟩

/-- Witness for C9: an empty Checksum with the unsupported selector 99 still
succeeds and never builds a validator. -/
theorem c9_empty_checksum_skips_validation_witness :
    (downloadURL (fun _ _ => "") ⟨fun _ => none, fun _ => none⟩ "" 99 "/f"
        ⟨[[1, 2]], none⟩).finalValidator = none ∧
    (downloadURL (fun _ _ => "") ⟨fun _ => none, fun _ => none⟩ "" 99 "/f"
        ⟨[[1, 2]], none⟩).result = Except.ok () ∧
    (downloadURL (fun _ _ => "") ⟨fun _ => none, fun _ => none⟩ "" 99 "/f"
        ⟨[[1, 2]], none⟩).destWrites = [[1, 2]] :=
  ⟨(c9_empty_checksum_skips_validation (fun _ _ => "") ⟨fun _ => none, fun _ => none⟩
      99 99 "/f" ⟨[[1, 2]], none⟩).1,
   ((c9_empty_checksum_skips_validation (fun _ _ => "") ⟨fun _ => none, fun _ => none⟩
      99 99 "/f" ⟨[[1, 2]], none⟩).2.2 rfl).1,
   ((c9_empty_checksum_skips_validation (fun _ _ => "") ⟨fun _ => none, fun _ => none⟩
      99 99 "/f" ⟨[[1, 2]], none⟩).2.2 rfl).2⟩

end GoDownload
